import Mathlib

/-!
Shallow embedding of the xbee_s2c driver (src/lib.rs, src/api_frame.rs).

Machine integers are modelled as `Nat` with `% 256` (resp. `% 2^16`) exactly
where the source wraps or truncates.  Rust code that can panic (`unwrap`,
`unimplemented!`, `unreachable!`, slice `split_at` out of range) is modelled
in `Option`, with `none` standing for the panic.  Multi-byte big-endian
assembly `(hi as uN) << 8 | lo` over bytes is written `hi * 256 + lo`, which
is the same function on byte-sized inputs.
-/

namespace XbeeS2C

/-- `api_frame::START`, the start-of-frame marker `0x7E`. -/
def START : Nat := 0x7E

/-- The wrapped (`u8::wrapping_add`) sum of a byte list, mirroring
`data.iter().fold(0, |acc: u8, &val| acc.wrapping_add(val))`. -/
def wsum (l : List Nat) : Nat := l.foldl (fun acc v => (acc + v) % 256) 0

/-- `api_frame::ApiPackError`. -/
inductive ApiPackError where
  | TooShort
  | TooLong
deriving DecidableEq

/-- `api_frame::FramePackingState`. -/
inductive FramePackingState where
  | Start
  | LenH
  | LenL
  | Data
  | Done
deriving DecidableEq

/-- `api_frame::FramePacker` (the iterator payload is a byte list). -/
structure FramePacker where
  state : FramePackingState
  escaped : Bool
  encrypted : Bool
  data : List Nat
  checksum : Nat
deriving DecidableEq

/-- `FramePacker::new`: rejects an empty payload (`TooShort`) and a payload of
more than `u16::max_value() = 65535` bytes (`TooLong`). -/
def FramePacker.new (data : List Nat) (escaped encrypted : Bool) :
    Except ApiPackError FramePacker :=
  if data.length = 0 then .error .TooShort
  else if data.length > 65535 then .error .TooLong
  else .ok { state := .Start, escaped := escaped, encrypted := encrypted,
             data := data, checksum := 0 }

/-- One step of `<FramePacker as Iterator>::next`.  In the `Data` state the
payload iterator is advanced and the checksum accumulates with wrapping
addition; once the payload is exhausted the closing byte `0xFF - checksum`
is emitted and the state moves to `Done`. -/
def FramePacker.next (p : FramePacker) : Option (Nat × FramePacker) :=
  match p.state with
  | .Start => some (START, { p with state := .LenH })
  | .LenH => some ((p.data.length >>> 8) % 256, { p with state := .LenL })
  | .LenL => some (p.data.length % 256, { p with state := .Data })
  | .Data =>
      match p.data with
      | v :: rest =>
          some (v, { p with data := rest, checksum := (p.checksum + v) % 256 })
      | [] => some (0xFF - p.checksum, { p with state := .Done })
  | .Done => none

/-- Drive `FramePacker.next` for at most `fuel` steps, collecting the yielded
bytes (the Rust side consumes the iterator by extending a vector). -/
def FramePacker.collect : Nat → FramePacker → List Nat
  | 0, _ => []
  | fuel + 1, p =>
      match p.next with
      | none => []
      | some (b, p') => b :: FramePacker.collect fuel p'

/-- `api_frame::ApiUnpackError`. -/
inductive ApiUnpackError where
  | NoStart
  | BadLength (n : Nat)
  | BadChecksum (s : Nat)
deriving DecidableEq

/-- `api_frame::unpack_frame`.  `none` models the panics of the source: the
`unimplemented!()` escaped branch and `buf.split_at(2)` on a buffer with
fewer than two bytes after the start marker.  `split_at(len + 1)` followed by
`split_last()` is rendered as `take len` / element `len` / `drop (len + 1)`,
which is the same decomposition. -/
def unpack_frame (buf : List Nat) (escaped : Bool) (_encryption : Bool) :
    Option (Except ApiUnpackError (List Nat × List Nat)) :=
  match buf with
  | [] => some (.error .NoStart)
  | b0 :: buf1 =>
      if escaped then none
      else if b0 ≠ START then some (.error .NoStart)
      else
        match buf1 with
        | h :: l :: rest =>
            let len := h * 256 + l
            if len + 1 > rest.length then some (.error (.BadLength (3 + len + 1)))
            else
              let data := rest.take len
              let checksum := rest.getD len 0
              let rem := rest.drop (len + 1)
              let check := wsum data
              if (checksum + check) % 256 = 0xFF then some (.ok (data, rem))
              else some (.error (.BadChecksum check))
        | _ => none

/-- `TxOptions::from_bits_truncate`: keeps only the defined flag bits
`DISABLE_ACK = 0x01` and `PAN_BROADCAST = 0x04`. -/
def TxOptions.from_bits_truncate (v : Nat) : Nat := v &&& 0x05

/-- `RxOptions::from_bits_truncate`: keeps only the defined flag bits
`ADDR_BROADCAST = 0x02` and `PAN_BROADCAST = 0x04`. -/
def RxOptions.from_bits_truncate (v : Nat) : Nat := v &&& 0x06

/-- `ChannelIndicator` flag constants (as 16-bit masks): the union
`D0 | ... | D8` and the four analog bits. -/
def ChannelIndicator.digitalMask : Nat := 0x01FF

/-- `ChannelIndicator::A0 = 0b0000_0010_0000_0000`. -/
def ChannelIndicator.A0 : Nat := 0x0200

/-- `ChannelIndicator::A1`. -/
def ChannelIndicator.A1 : Nat := 0x0400

/-- `ChannelIndicator::A2`. -/
def ChannelIndicator.A2 : Nat := 0x0800

/-- `ChannelIndicator::from_bits_truncate`: keeps the 13 defined bits. -/
def ChannelIndicator.A3 : Nat := 0x1000

/-- `ChannelIndicator::from_bits_truncate` keeps only the defined bits
`A3 | A2 | A1 | A0 | D8..D0 = 0x1FFF`. -/
def ChannelIndicator.from_bits_truncate (v : Nat) : Nat := v &&& 0x1FFF

/-- `ChannelIndicator::contains_digital`: `self.contains(D0 | ... | D8)`.
`bitflags`' `contains` tests that *all* bits of the argument are present:
`(self & other) == other`. -/
def ChannelIndicator.contains_digital (ci : Nat) : Bool :=
  ci &&& ChannelIndicator.digitalMask == ChannelIndicator.digitalMask

/-- `bitflags`' `contains` for a single-bit mask. -/
def ChannelIndicator.contains (ci mask : Nat) : Bool := ci &&& mask == mask

/-- `api_frame::AtCommandStatus`. -/
inductive AtCommandStatus where
  | Ok
  | Error
  | InvalidCommand
  | InvalidParam
  | NoResponse
  | Unknown
deriving DecidableEq

/-- `api_frame::TxStatus` (the status enumeration). -/
inductive TxStatus where
  | Standard
  | NoAck
  | CcaFailure
  | TxPurged
  | NetworkAckFailure
  | NotConnected
  | InternalError
  | ResourceDepletion
  | PayloadTooLarge
  | Unknown
deriving DecidableEq

/-- `TxStatus::from` (the private conversion). -/
def TxStatus.fromByte (v : Nat) : TxStatus :=
  if v = 0x00 then .Standard
  else if v = 0x01 then .NoAck
  else if v = 0x02 then .CcaFailure
  else if v = 0x03 then .TxPurged
  else if v = 0x21 then .NetworkAckFailure
  else if v = 0x22 then .NotConnected
  else if v = 0x31 then .InternalError
  else if v = 0x32 then .ResourceDepletion
  else if v = 0x74 then .PayloadTooLarge
  else .Unknown

/-- `api_frame::ModemStatus`. -/
inductive ModemStatus where
  | HardwareReset
  | WatchdogReset
  | AssociatedCoordinator
  | DissociatedCoordinator
  | CoordinatorNewNetwork
  | InputVoltageTooHigh
  | Unknown
deriving DecidableEq

/-- `ModemStatus::from` (the private conversion). -/
def ModemStatus.fromByte (v : Nat) : ModemStatus :=
  if v = 0x00 then .HardwareReset
  else if v = 0x01 then .WatchdogReset
  else if v = 0x02 then .AssociatedCoordinator
  else if v = 0x03 then .DissociatedCoordinator
  else if v = 0x06 then .CoordinatorNewNetwork
  else if v = 0x0D then .InputVoltageTooHigh
  else .Unknown

/-- `AtCommandStatus` decode used in the `0x88` arm of `ApiData::parse`
(note: no arm for `4`). -/
def atStatus88 (s : Nat) : AtCommandStatus :=
  if s = 0 then .Ok
  else if s = 1 then .Error
  else if s = 2 then .InvalidCommand
  else if s = 3 then .InvalidParam
  else .Unknown

/-- `AtCommandStatus` decode used in the `0x97` arm of `ApiData::parse`
(this one maps `4` to `NoResponse`). -/
def atStatus97 (s : Nat) : AtCommandStatus :=
  if s = 0 then .Ok
  else if s = 1 then .Error
  else if s = 2 then .InvalidCommand
  else if s = 3 then .InvalidParam
  else if s = 4 then .NoResponse
  else .Unknown

/-- `api_frame::ApiData` (borrowed slices become byte lists, `[u8; 2]`
becomes a pair, `[Option<u16>; 4]` becomes a 4-element list). -/
inductive ApiData where
  | TxRequest64Addr (frame_id dest_addr options : Nat) (data : List Nat)
  | TxRequest16Addr (frame_id dest_addr options : Nat) (data : List Nat)
  | AtCommand (frame_id : Nat) (at_cmd : Nat × Nat) (params : List Nat)
  | AtCommandQueueParam (frame_id : Nat) (at_cmd : Nat × Nat) (params : List Nat)
  | RemoteAtCommand (frame_id dest_addr_64 dest_addr_16 : Nat) (at_cmd : Nat × Nat)
      (params : List Nat)
  | RxPacket64Addr (source_addr rssi options : Nat) (data : List Nat)
  | RxPacket16Addr (source_addr rssi options : Nat) (data : List Nat)
  | RxPacketIo64Addr (source_addr rssi options samples channel_indicator : Nat)
      (digital_samples : Option Nat) (analog_samples : List (Option Nat))
  | RxPacketIo16Addr (source_addr rssi options samples channel_indicator : Nat)
      (digital_samples : Option Nat) (analog_samples : List (Option Nat))
  | AtCommandResponse (frame_id : Nat) (at_cmd : Nat × Nat) (status : AtCommandStatus)
      (data : List Nat)
  | TxStatus (frame_id : Nat) (status : XbeeS2C.TxStatus)
  | ModemStatus (status : XbeeS2C.ModemStatus)
  | RemoteAtCommandResponse (frame_id source_addr_64 source_addr_16 : Nat)
      (at_cmd : Nat × Nat) (status : AtCommandStatus) (data : List Nat)
deriving DecidableEq

/-- The 64-bit big-endian assembly of eight bytes,
`(b0 as u64) << 56 | ... | (b7 as u64)`. -/
def be64 (b0 b1 b2 b3 b4 b5 b6 b7 : Nat) : Nat :=
  b0 * 2 ^ 56 + b1 * 2 ^ 48 + b2 * 2 ^ 40 + b3 * 2 ^ 32 +
    b4 * 2 ^ 24 + b5 * 2 ^ 16 + b6 * 2 ^ 8 + b7

/-- The conditional 16-bit read of the IO-sample arms: when `cond` holds
consume two bytes (`iter.next().unwrap()` twice, so `none` models the panic
on an exhausted iterator), otherwise consume nothing and yield `none`. -/
def takeIf (cond : Bool) (l : List Nat) : Option (Option Nat × List Nat) :=
  if cond then
    match l with
    | h :: lo :: rest => some (some (h * 256 + lo), rest)
    | _ => none
  else some (none, l)

/-- `ApiData::parse`.  The Rust body takes `len = data.len()`, then matches the
first byte (`iter.next().unwrap()`, a panic on the empty payload) against the
13 type codes, each arm guarded by a per-type length test; an unmatched byte
or failed guard lands in the `_ => Err(())` arm.  Every `iter.next().unwrap()`
is one cons-pattern step; `none` models a panic. -/
def ApiData.parse (data : List Nat) : Option (Except Unit ApiData) :=
  match data with
  | [] => none
  | t :: r =>
      let len := r.length + 1
      if t = 0x00 ∧ len > 10 then
        match r with
        | frame_id :: a0 :: a1 :: a2 :: a3 :: a4 :: a5 :: a6 :: a7 :: op :: rest =>
            some (.ok (.TxRequest64Addr frame_id (be64 a0 a1 a2 a3 a4 a5 a6 a7)
              (TxOptions.from_bits_truncate op) rest))
        | _ => none
      else if t = 0x01 ∧ len > 4 then
        match r with
        | frame_id :: d0 :: d1 :: op :: rest =>
            some (.ok (.TxRequest16Addr frame_id (d0 * 256 + d1)
              (TxOptions.from_bits_truncate op) rest))
        | _ => none
      else if t = 0x08 ∧ len > 3 then
        match r with
        | frame_id :: c1 :: c2 :: rest =>
            some (.ok (.AtCommand frame_id (c1, c2) rest))
        | _ => none
      else if t = 0x09 ∧ len > 3 then
        match r with
        | frame_id :: c1 :: c2 :: rest =>
            some (.ok (.AtCommandQueueParam frame_id (c1, c2) rest))
        | _ => none
      else if t = 0x17 ∧ len > 13 then
        match r with
        | frame_id :: a0 :: a1 :: a2 :: a3 :: a4 :: a5 :: a6 :: a7 ::
            d0 :: d1 :: c1 :: c2 :: rest =>
            some (.ok (.RemoteAtCommand frame_id (be64 a0 a1 a2 a3 a4 a5 a6 a7)
              (d0 * 256 + d1) (c1, c2) rest))
        | _ => none
      else if t = 0x80 ∧ len > 10 then
        match r with
        | a0 :: a1 :: a2 :: a3 :: a4 :: a5 :: a6 :: a7 :: rssi :: op :: rest =>
            some (.ok (.RxPacket64Addr (be64 a0 a1 a2 a3 a4 a5 a6 a7) rssi
              (RxOptions.from_bits_truncate op) rest))
        | _ => none
      else if t = 0x81 ∧ len > 4 then
        match r with
        | d0 :: d1 :: rssi :: op :: rest =>
            some (.ok (.RxPacket16Addr (d0 * 256 + d1) rssi
              (RxOptions.from_bits_truncate op) rest))
        | _ => none
      else if t = 0x82 ∧ len > 13 then
        match r with
        | a0 :: a1 :: a2 :: a3 :: a4 :: a5 :: a6 :: a7 :: rssi :: op ::
            samples :: i0 :: i1 :: rest => do
            let ci := ChannelIndicator.from_bits_truncate (i0 * 256 + i1)
            let (digital, r1) ← takeIf (ChannelIndicator.contains_digital ci) rest
            let (an0, r2) ← takeIf (ChannelIndicator.contains ci ChannelIndicator.A0) r1
            let (an1, r3) ← takeIf (ChannelIndicator.contains ci ChannelIndicator.A1) r2
            let (an2, r4) ← takeIf (ChannelIndicator.contains ci ChannelIndicator.A2) r3
            let (an3, _r5) ← takeIf (ChannelIndicator.contains ci ChannelIndicator.A3) r4
            some (.ok (.RxPacketIo64Addr (be64 a0 a1 a2 a3 a4 a5 a6 a7) rssi
              (RxOptions.from_bits_truncate op) samples ci digital [an0, an1, an2, an3]))
        | _ => none
      else if t = 0x83 ∧ len > 7 then
        match r with
        | d0 :: d1 :: rssi :: op :: samples :: i0 :: i1 :: rest => do
            let ci := ChannelIndicator.from_bits_truncate (i0 * 256 + i1)
            let (digital, r1) ← takeIf (ChannelIndicator.contains_digital ci) rest
            let (an0, r2) ← takeIf (ChannelIndicator.contains ci ChannelIndicator.A0) r1
            let (an1, r3) ← takeIf (ChannelIndicator.contains ci ChannelIndicator.A1) r2
            let (an2, r4) ← takeIf (ChannelIndicator.contains ci ChannelIndicator.A2) r3
            let (an3, _r5) ← takeIf (ChannelIndicator.contains ci ChannelIndicator.A3) r4
            some (.ok (.RxPacketIo16Addr (d0 * 256 + d1) rssi
              (RxOptions.from_bits_truncate op) samples ci digital [an0, an1, an2, an3]))
        | _ => none
      else if t = 0x88 ∧ len > 4 then
        match r with
        | frame_id :: c1 :: c2 :: s :: rest =>
            some (.ok (.AtCommandResponse frame_id (c1, c2) (atStatus88 s) rest))
        | _ => none
      else if t = 0x89 ∧ len = 3 then
        match r with
        | frame_id :: s :: _ =>
            some (.ok (.TxStatus frame_id (TxStatus.fromByte s)))
        | _ => none
      else if t = 0x8A ∧ len = 2 then
        match r with
        | s :: _ => some (.ok (.ModemStatus (ModemStatus.fromByte s)))
        | _ => none
      else if t = 0x97 ∧ len > 14 then
        match r with
        | frame_id :: a0 :: a1 :: a2 :: a3 :: a4 :: a5 :: a6 :: a7 ::
            d0 :: d1 :: c1 :: c2 :: s :: rest =>
            some (.ok (.RemoteAtCommandResponse frame_id (be64 a0 a1 a2 a3 a4 a5 a6 a7)
              (d0 * 256 + d1) (c1, c2) (atStatus97 s) rest))
        | _ => none
      else some (.error ())

/-- `lib.rs`' `Addr`: a 16-bit short or 64-bit long destination address. -/
inductive Addr where
  | Short (a : Nat)
  | Long (a : Nat)
deriving DecidableEq

/-- `api_frame::TxRequestState`. -/
inductive TxRequestState where
  | FrameType
  | FrameId
  | Addr
  | Options
  | Data
deriving DecidableEq

/-- `api_frame::TxRequestIter` (the data iterator is a byte list, the
`TxOptions` bit set is its `bits()` value). -/
structure TxRequestIter where
  state : TxRequestState
  frame_id : Nat
  addr : Nat
  addr_shift : Nat
  options : Nat
  data : List Nat
deriving DecidableEq

/-- `TxRequestIter::new`: a long address starts the emission shift at 56,
a short one (cast to `u64`) at 8. -/
def TxRequestIter.new (frame_id : Nat) (addr : Addr) (options : Nat)
    (data : List Nat) : TxRequestIter :=
  match addr with
  | .Long a => ⟨.FrameType, frame_id, a, 56, options, data⟩
  | .Short a => ⟨.FrameType, frame_id, a, 8, options, data⟩

/-- One step of `<TxRequestIter as Iterator>::next`; `none` in the
`FrameType` state models the `unreachable!()` arm, and each address byte is
`(addr >> shift) as u8`. -/
def TxRequestIter.next (s : TxRequestIter) : Option (Nat × TxRequestIter) :=
  match s.state with
  | .FrameType =>
      if s.addr_shift = 56 then some (0x00, { s with state := .FrameId })
      else if s.addr_shift = 8 then some (0x01, { s with state := .FrameId })
      else none
  | .FrameId => some (s.frame_id, { s with state := .Addr })
  | .Addr =>
      let val := (s.addr >>> s.addr_shift) % 256
      if s.addr_shift = 0 then some (val, { s with state := .Options })
      else some (val, { s with addr_shift := s.addr_shift - 8 })
  | .Options => some (s.options, { s with state := .Data })
  | .Data =>
      match s.data with
      | v :: rest => some (v, { s with data := rest })
      | [] => none

/-- `<TxRequestIter as ExactSizeIterator>::len`. -/
def TxRequestIter.len (s : TxRequestIter) : Nat :=
  match s.state with
  | .FrameType => 2 + (s.addr_shift / 8 + 1) + 1 + s.data.length
  | .FrameId => 1 + (s.addr_shift / 8 + 1) + 1 + s.data.length
  | .Addr => (s.addr_shift / 8 + 1) + 1 + s.data.length
  | .Options => 1 + s.data.length
  | .Data => s.data.length

/-- Drive `TxRequestIter.next` for at most `fuel` steps, collecting the
yielded bytes. -/
def TxRequestIter.collect : Nat → TxRequestIter → List Nat
  | 0, _ => []
  | fuel + 1, s =>
      match s.next with
      | none => []
      | some (b, s') => b :: TxRequestIter.collect fuel s'

/-- The whole byte sequence a `TxRequestIter` yields: its exact
`ExactSizeIterator::len` many steps of `next`. -/
def TxRequestIter.emitAll (s : TxRequestIter) : List Nat :=
  TxRequestIter.collect s.len s

/-- `Iterator::position` as used by `XBeeQueue::remove_until_start`:
index of the first element satisfying the predicate. -/
def position (p : Nat → Bool) : List Nat → Option Nat
  | [] => none
  | x :: xs => if p x then some 0 else (position p xs).map (· + 1)

/-- `XBeeQueue::remove_exact` on the receive buffer: drop the first
`amount` bytes, `Err` (here `none`) when the buffer is shorter. -/
def remove_exact (amount : Nat) (l : List Nat) : Option (List Nat) :=
  if amount = 0 then some l
  else if amount ≤ l.length then some (l.drop amount)
  else none

/-- `XBeeQueue::remove_until_start` (reached through
`XBeeApiReceiver::remove_until_packet`): discard up to the first `START`
byte and return how many bytes were discarded, or clear the whole buffer
when no `START` exists. -/
def remove_until_start (l : List Nat) : Option (Nat × List Nat) :=
  match position (fun c => c == START) l with
  | some size => (remove_exact size l).map (fun l' => (size, l'))
  | none => some (l.length, [])

/-- Outcome of one `XBeeApiSpi::transmit_and_receive` call: a normal return
(`Ok(val_read)`) or the `try_push(rx).unwrap()` panic on a full receive
buffer; both record the final queue contents. -/
inductive PollOutcome where
  | ok (val_read : Bool) (tx rx : List Nat)
  | panicked (tx rx : List Nat)
deriving DecidableEq

/-- The receive buffer an outcome leaves behind. -/
def PollOutcome.rx : PollOutcome → List Nat
  | .ok _ _ rx => rx
  | .panicked _ rx => rx

/-- Capacity of the fixed `ArrayVec<[u8; 512]>` receive buffer. -/
def rxCapacity : Nat := 512

/-- `XBeeApiSpi::transmit_and_receive`, fuelled.  The environment is the
attention-signal level `attn i` and the byte `rxb i` delivered on the
`i`-th full-duplex exchange (each `block!` exchange completes).  Per
iteration: while the transmit queue is non-empty or attention is low, pop a
transmit byte (or the `0xFF` filler), exchange it, and if attention was low
append the read byte — `try_push(..).unwrap()` panics when the buffer is
already full, and a buffer that just became full breaks the loop.  `none`
means the fuel ran out, `some` that the call returned (or panicked). -/
def transmit_and_receive (attn : Nat → Bool) (rxb : Nat → Nat) :
    Nat → Nat → List Nat → List Nat → Bool → Option PollOutcome
  | 0, _, _, _, _ => none
  | fuel + 1, k, tx, rx, val_read =>
      let attn_val := attn k
      if tx ≠ [] ∨ attn_val = false then
        let popped := match tx with
          | b :: t => (b, t)
          | [] => (0xFF, [])
        let tx' := popped.2
        let rxv := rxb k
        if attn_val = false then
          if rx.length < rxCapacity then
            let rx' := rx ++ [rxv]
            if rx'.length = rxCapacity then some (.ok true tx' rx')
            else transmit_and_receive attn rxb fuel (k + 1) tx' rx' true
          else some (.panicked tx' rx)
        else transmit_and_receive attn rxb fuel (k + 1) tx' rx val_read
      else some (.ok val_read tx rx)

/-! ### Arithmetic and packer helper lemmas -/

theorem foldl_wrap (l : List Nat) (c : Nat) :
    l.foldl (fun acc v => (acc + v) % 256) (c % 256) = (c + l.sum) % 256 := by
  induction l generalizing c with
  | nil => simp
  | cons v t ih =>
      simp only [List.foldl_cons, List.sum_cons]
      rw [Nat.mod_add_mod, ih (c + v), Nat.add_assoc]

theorem wsum_eq (l : List Nat) : wsum l = l.sum % 256 := by
  have h := foldl_wrap l 0
  simpa [wsum] using h

theorem wsum_lt (l : List Nat) : wsum l < 256 := by
  rw [wsum_eq]
  exact Nat.mod_lt _ (by norm_num)

theorem collect_succ (n : Nat) (p : FramePacker) :
    FramePacker.collect (n + 1) p =
      match p.next with
      | none => []
      | some (b, p') => b :: FramePacker.collect n p' := rfl

theorem collect_data_phase (d : List Nat) :
    ∀ (c : Nat) (esc enc : Bool),
      FramePacker.collect (d.length + 1) ⟨.Data, esc, enc, d, c⟩ =
        d ++ [0xFF - d.foldl (fun acc v => (acc + v) % 256) c] := by
  induction d with
  | nil =>
      intro c esc enc
      simp [FramePacker.collect, FramePacker.next]
  | cons v t ih =>
      intro c esc enc
      rw [show (v :: t).length + 1 = t.length + 1 + 1 from rfl, collect_succ]
      simp only [FramePacker.next, List.foldl_cons]
      rw [ih ((c + v) % 256), List.cons_append]

theorem pack_collect (d : List Nat) (esc enc : Bool) :
    FramePacker.collect (d.length + 4) ⟨.Start, esc, enc, d, 0⟩ =
      START :: ((d.length >>> 8) % 256) :: (d.length % 256) ::
        (d ++ [0xFF - wsum d]) := by
  rw [show d.length + 4 = d.length + 3 + 1 from rfl, collect_succ]
  simp only [FramePacker.next]
  rw [show d.length + 3 = d.length + 2 + 1 from rfl, collect_succ]
  simp only [FramePacker.next]
  rw [show d.length + 2 = d.length + 1 + 1 from rfl, collect_succ]
  simp only [FramePacker.next]
  rw [collect_data_phase d 0 esc enc]
  rfl

theorem be_split (L : Nat) (h : L ≤ 65535) :
    (L >>> 8) % 256 * 256 + L % 256 = L := by
  have h8 : L >>> 8 = L / 256 := by
    rw [Nat.shiftRight_eq_div_pow]
  rw [h8]
  omega

theorem take_append_len (l1 l2 : List Nat) : (l1 ++ l2).take l1.length = l1 := by
  induction l1 with
  | nil => rfl
  | cons x t ih => simp [ih]

theorem getD_append_len (l1 : List Nat) (x d : Nat) (l2 : List Nat) :
    (l1 ++ x :: l2).getD l1.length d = x := by
  induction l1 with
  | nil => rfl
  | cons y t ih => exact ih

theorem drop_append_one (l1 : List Nat) (x : Nat) :
    (l1 ++ [x]).drop (l1.length + 1) = [] := by
  induction l1 with
  | nil => rfl
  | cons y t ih => exact ih

/-- Evaluation of `unpack_frame` on a buffer that starts with the marker and
has both length bytes present: the definition's `match`es and `let`s
reduced. -/
theorem unpack_frame_start (h l : Nat) (rest : List Nat) :
    unpack_frame (START :: h :: l :: rest) false false =
      (if h * 256 + l + 1 > rest.length then
        some (.error (.BadLength (3 + (h * 256 + l) + 1)))
      else if (rest.getD (h * 256 + l) 0 + wsum (rest.take (h * 256 + l))) % 256 = 0xFF
        then some (.ok (rest.take (h * 256 + l), rest.drop (h * 256 + l + 1)))
        else some (.error (.BadChecksum (wsum (rest.take (h * 256 + l)))))) := rfl

/-- C10: `FramePacker::new` fails with `TooShort` exactly on the empty
payload, fails with `TooLong` exactly beyond 65535 bytes, and succeeds for
every payload of length 1 through 65535 inclusive. -/
theorem c10_length_guard (data : List Nat) (escaped encrypted : Bool) :
    (FramePacker.new data escaped encrypted = .error .TooShort ↔ data.length = 0) ∧
    (FramePacker.new data escaped encrypted = .error .TooLong ↔ data.length > 65535) ∧
    (1 ≤ data.length → data.length ≤ 65535 →
      FramePacker.new data escaped encrypted =
        .ok ⟨.Start, escaped, encrypted, data, 0⟩) := by
  unfold FramePacker.new
  split_ifs with h0 h1
  · simp [h0]
  · simp only [h0, h1]
    refine ⟨by simp [h0], by simp [h1], ?_⟩
    intro _ hc
    omega
  · refine ⟨by simp [h0], by simp [h1], fun _ _ => rfl⟩

/-- Witness for C10: the 65535-byte payload is accepted. -/
theorem c10_witness :
    FramePacker.new (List.replicate 65535 0) false false =
      .ok ⟨.Start, false, false, List.replicate 65535 0, 0⟩ :=
  (c10_length_guard (List.replicate 65535 0) false false).2.2
    (by rw [List.length_replicate]; omega) (by rw [List.length_replicate])

/-- C1: packing a payload of length 1..=65535 with `FramePacker`
(escaped = encrypted = false) succeeds, and unpacking the collected bytes
returns exactly the payload with an empty remainder. -/
theorem c1_pack_unpack_round_trip (P : List Nat) (h1 : 1 ≤ P.length)
    (h2 : P.length ≤ 65535) :
    FramePacker.new P false false = .ok ⟨.Start, false, false, P, 0⟩ ∧
    unpack_frame (FramePacker.collect (P.length + 4) ⟨.Start, false, false, P, 0⟩)
        false false = some (.ok (P, [])) := by
  constructor
  · unfold FramePacker.new
    rw [if_neg (by omega), if_neg (by omega)]
  · have hlen := be_split P.length h2
    have hw := wsum_lt P
    rw [pack_collect, unpack_frame_start, hlen, take_append_len, getD_append_len,
      drop_append_one]
    rw [if_neg (by simp), if_pos (by omega)]

/-- Witness for C1 at the one-byte payload `[0x42]`. -/
theorem c1_witness :
    FramePacker.new [0x42] false false = .ok ⟨.Start, false, false, [0x42], 0⟩ ∧
    unpack_frame (FramePacker.collect ([0x42].length + 4) ⟨.Start, false, false, [0x42], 0⟩)
        false false = some (.ok ([0x42], [])) :=
  c1_pack_unpack_round_trip [0x42] (by decide) (by decide)

/-- C2 counterexample: a buffer of total length 1 (and one of length 2)
beginning with the start marker makes `unpack_frame` panic
(`buf.split_at(2)` out of range, modelled `none`) instead of returning one
of the three error outcomes or success. -/
theorem c2_counterexample :
    unpack_frame [0x7E] false false = none ∧
    unpack_frame [0x7E, 0x00] false false = none := ⟨rfl, rfl⟩

/-- C2 amended: for every buffer that is empty, does not begin with `0x7E`,
or has length at least 3, `unpack_frame` (escaped = false) returns
`NoStart` when the first byte is missing or wrong; otherwise it reads the
big-endian length and returns `BadLength` when `length + 1` exceeds the
bytes after the 3-byte header, `BadChecksum(sum)` when the checksum test
fails, and `Ok(payload, remainder)` otherwise.  (Buffers of length 1 or 2
beginning with `0x7E` panic instead — see the counterexample.) -/
theorem c2_unpack_outcomes (buf : List Nat) :
    (buf.head? ≠ some START → unpack_frame buf false false = some (.error .NoStart)) ∧
    (∀ h l rest, buf = START :: h :: l :: rest →
      (h * 256 + l + 1 > rest.length →
        unpack_frame buf false false =
          some (.error (.BadLength (3 + (h * 256 + l) + 1)))) ∧
      (¬ h * 256 + l + 1 > rest.length →
        (((rest.getD (h * 256 + l) 0 + wsum (rest.take (h * 256 + l))) % 256 = 0xFF →
          unpack_frame buf false false =
            some (.ok (rest.take (h * 256 + l), rest.drop (h * 256 + l + 1)))) ∧
        ((rest.getD (h * 256 + l) 0 + wsum (rest.take (h * 256 + l))) % 256 ≠ 0xFF →
          unpack_frame buf false false =
            some (.error (.BadChecksum (wsum (rest.take (h * 256 + l))))))))) := by
  constructor
  · cases buf with
    | nil => intro _; rfl
    | cons b0 bs =>
        intro hne
        have hb0 : b0 ≠ START := by simpa using hne
        simp [unpack_frame, hb0]
  · intro h l rest hbuf
    subst hbuf
    rw [unpack_frame_start]
    constructor
    · intro hg
      rw [if_pos hg]
    · intro hg
      rw [if_neg hg]
      constructor
      · intro hc
        rw [if_pos hc]
      · intro hc
        rw [if_neg hc]

/-- Witness for C2 on the repository's own test frame. -/
theorem c2_witness :
    unpack_frame [0x7E, 0x00, 0x0A, 0x01, 0x01, 0x50, 0x01, 0x00, 0x48, 0x65,
        0x6C, 0x6C, 0x6F, 0xB8, 0x7E, 0x01, 0x02] false false =
      some (.ok ([0x01, 0x01, 0x50, 0x01, 0x00, 0x48, 0x65, 0x6C, 0x6C, 0x6F],
        [0x7E, 0x01, 0x02])) := by
  have h := ((c2_unpack_outcomes [0x7E, 0x00, 0x0A, 0x01, 0x01, 0x50, 0x01, 0x00,
      0x48, 0x65, 0x6C, 0x6C, 0x6F, 0xB8, 0x7E, 0x01, 0x02]).2 0 0x0A
      [0x01, 0x01, 0x50, 0x01, 0x00, 0x48, 0x65, 0x6C, 0x6C, 0x6F, 0xB8, 0x7E, 0x01, 0x02]
      rfl).2 (by decide)
  exact h.1 (by decide)

/-- C5 counterexample: on the empty payload, `ApiData::parse` panics (the
first `iter.next().unwrap()`), modelled as `none` — it does not return the
generic `Err(())`. -/
theorem c5_counterexample :
    ApiData.parse [] = none ∧ ApiData.parse [] ≠ some (.error ()) :=
  ⟨rfl, by intro hc; rw [show ApiData.parse [] = none from rfl] at hc; cases hc⟩

/-- C5 amended: for every *non-empty* payload whose leading type byte and
length fail all thirteen per-type guards (unrecognized type, or too short
for its recognized type), `ApiData::parse` returns the single generic
failure `Err(())`; the empty payload instead panics. -/
theorem c5_generic_failure (t : Nat) (r : List Nat)
    (hg : ¬ ((t = 0x00 ∧ r.length + 1 > 10) ∨ (t = 0x01 ∧ r.length + 1 > 4) ∨
      (t = 0x08 ∧ r.length + 1 > 3) ∨ (t = 0x09 ∧ r.length + 1 > 3) ∨
      (t = 0x17 ∧ r.length + 1 > 13) ∨ (t = 0x80 ∧ r.length + 1 > 10) ∨
      (t = 0x81 ∧ r.length + 1 > 4) ∨ (t = 0x82 ∧ r.length + 1 > 13) ∨
      (t = 0x83 ∧ r.length + 1 > 7) ∨ (t = 0x88 ∧ r.length + 1 > 4) ∨
      (t = 0x89 ∧ r.length + 1 = 3) ∨ (t = 0x8A ∧ r.length + 1 = 2) ∨
      (t = 0x97 ∧ r.length + 1 > 14))) :
    ApiData.parse (t :: r) = some (.error ()) := by
  simp only [not_or] at hg
  obtain ⟨h1, h2, h3, h4, h5, h6, h7, h8, h9, h10, h11, h12, h13⟩ := hg
  simp only [ApiData.parse]
  rw [if_neg h1, if_neg h2, if_neg h3, if_neg h4, if_neg h5, if_neg h6, if_neg h7,
    if_neg h8, if_neg h9, if_neg h10, if_neg h11, if_neg h12, if_neg h13]

/-- Witness for C5: an unrecognized type byte yields the generic failure. -/
theorem c5_witness : ApiData.parse [0x05] = some (.error ()) :=
  c5_generic_failure 0x05 [] (by decide)

/-- C3: at the IO-sample payload
`[0x83, 0x12, 0x34, 0x28, 0x00, 0x01, 0x00, 0x01, 0xAB, 0xCD]` the 16-bit
channel indicator is `0x0001` — digital bit D0 is set — yet the decoded
`digital_samples` field is `none`, because `contains_digital` uses
`bitflags`' all-bits `contains` over `D0 | ... | D8` instead of an
any-bit test. -/
theorem c3_contains_digital_divergence :
    ApiData.parse [0x83, 0x12, 0x34, 0x28, 0x00, 0x01, 0x00, 0x01, 0xAB, 0xCD] =
      some (.ok (.RxPacketIo16Addr 0x1234 0x28 0x00 0x01 0x0001 none
        [none, none, none, none])) ∧
    0x0001 &&& ChannelIndicator.digitalMask ≠ 0 ∧
    ChannelIndicator.contains_digital 0x0001 = false :=
  ⟨rfl, by decide, rfl⟩

/-- C4 counterexample: a local AT command response (type `0x88`) with
status byte `4` decodes to `Unknown`, not to the enumeration's
`NoResponse = 4` — the `0x88` arm has no mapping for `4`. -/
theorem c4_counterexample :
    ApiData.parse [0x88, 0x01, 0x42, 0x44, 0x04] =
      some (.ok (.AtCommandResponse 0x01 (0x42, 0x44) .Unknown [])) ∧
    AtCommandStatus.Unknown ≠ AtCommandStatus.NoResponse :=
  ⟨rfl, by decide⟩

theorem atStatus88_unknown (s : Nat) (h0 : s ≠ 0) (h1 : s ≠ 1) (h2 : s ≠ 2)
    (h3 : s ≠ 3) : atStatus88 s = .Unknown := by
  unfold atStatus88
  rw [if_neg h0, if_neg h1, if_neg h2, if_neg h3]

theorem atStatus97_unknown (s : Nat) (h0 : s ≠ 0) (h1 : s ≠ 1) (h2 : s ≠ 2)
    (h3 : s ≠ 3) (h4 : s ≠ 4) : atStatus97 s = .Unknown := by
  unfold atStatus97
  rw [if_neg h0, if_neg h1, if_neg h2, if_neg h3, if_neg h4]

theorem txStatus_fromByte_unknown (s : Nat) (h0 : s ≠ 0x00) (h1 : s ≠ 0x01)
    (h2 : s ≠ 0x02) (h3 : s ≠ 0x03) (h4 : s ≠ 0x21) (h5 : s ≠ 0x22)
    (h6 : s ≠ 0x31) (h7 : s ≠ 0x32) (h8 : s ≠ 0x74) :
    TxStatus.fromByte s = .Unknown := by
  unfold TxStatus.fromByte
  rw [if_neg h0, if_neg h1, if_neg h2, if_neg h3, if_neg h4, if_neg h5, if_neg h6,
    if_neg h7, if_neg h8]

theorem modemStatus_fromByte_unknown (s : Nat) (h0 : s ≠ 0x00) (h1 : s ≠ 0x01)
    (h2 : s ≠ 0x02) (h3 : s ≠ 0x03) (h4 : s ≠ 0x06) (h5 : s ≠ 0x0D) :
    ModemStatus.fromByte s = .Unknown := by
  unfold ModemStatus.fromByte
  rw [if_neg h0, if_neg h1, if_neg h2, if_neg h3, if_neg h4, if_neg h5]

theorem parse_88 (fid c1 c2 s : Nat) (rest : List Nat) :
    ApiData.parse (0x88 :: fid :: c1 :: c2 :: s :: rest) =
      some (.ok (.AtCommandResponse fid (c1, c2) (atStatus88 s) rest)) := by
  have hl : (4 : Nat) < rest.length + 5 := by omega
  simp [ApiData.parse, hl]

theorem parse_89 (fid s : Nat) :
    ApiData.parse [0x89, fid, s] =
      some (.ok (.TxStatus fid (TxStatus.fromByte s))) := rfl

theorem parse_8A (s : Nat) :
    ApiData.parse [0x8A, s] =
      some (.ok (.ModemStatus (ModemStatus.fromByte s))) := rfl

theorem parse_97 (fid a0 a1 a2 a3 a4 a5 a6 a7 d0 d1 c1 c2 s : Nat)
    (rest : List Nat) :
    ApiData.parse (0x97 :: fid :: a0 :: a1 :: a2 :: a3 :: a4 :: a5 :: a6 :: a7 ::
        d0 :: d1 :: c1 :: c2 :: s :: rest) =
      some (.ok (.RemoteAtCommandResponse fid (be64 a0 a1 a2 a3 a4 a5 a6 a7)
        (d0 * 256 + d1) (c1, c2) (atStatus97 s) rest)) := by
  have hl : (14 : Nat) < rest.length + 15 := by omega
  simp [ApiData.parse, hl]

/-- C4 amended: all four status-bearing frame kinds decode their status
byte through the corresponding enumeration with an `Unknown` fallback and
never fail to parse; for `0x88` the mapped values are 0..3 (a status byte
of 4 also falls back to `Unknown` — the enumeration's `NoResponse = 4` is
only mapped in the remote `0x97` arm), for `0x97` the values 0..4, and for
`TxStatus`/`ModemStatus` every value listed in the enumeration. -/
theorem c4_status_decode :
    (∀ fid c1 c2 s rest, ApiData.parse (0x88 :: fid :: c1 :: c2 :: s :: rest) =
        some (.ok (.AtCommandResponse fid (c1, c2) (atStatus88 s) rest)) ∧
      (s = 0 → atStatus88 s = .Ok) ∧
      (s = 1 → atStatus88 s = .Error) ∧
      (s = 2 → atStatus88 s = .InvalidCommand) ∧
      (s = 3 → atStatus88 s = .InvalidParam) ∧
      (s ≠ 0 → s ≠ 1 → s ≠ 2 → s ≠ 3 → atStatus88 s = .Unknown)) ∧
    (∀ fid s, ApiData.parse [0x89, fid, s] =
        some (.ok (.TxStatus fid (TxStatus.fromByte s))) ∧
      (s = 0x00 → TxStatus.fromByte s = .Standard) ∧
      (s = 0x01 → TxStatus.fromByte s = .NoAck) ∧
      (s = 0x02 → TxStatus.fromByte s = .CcaFailure) ∧
      (s = 0x03 → TxStatus.fromByte s = .TxPurged) ∧
      (s = 0x21 → TxStatus.fromByte s = .NetworkAckFailure) ∧
      (s = 0x22 → TxStatus.fromByte s = .NotConnected) ∧
      (s = 0x31 → TxStatus.fromByte s = .InternalError) ∧
      (s = 0x32 → TxStatus.fromByte s = .ResourceDepletion) ∧
      (s = 0x74 → TxStatus.fromByte s = .PayloadTooLarge) ∧
      (s ≠ 0x00 → s ≠ 0x01 → s ≠ 0x02 → s ≠ 0x03 → s ≠ 0x21 → s ≠ 0x22 →
        s ≠ 0x31 → s ≠ 0x32 → s ≠ 0x74 → TxStatus.fromByte s = .Unknown)) ∧
    (∀ s, ApiData.parse [0x8A, s] =
        some (.ok (.ModemStatus (ModemStatus.fromByte s))) ∧
      (s = 0x00 → ModemStatus.fromByte s = .HardwareReset) ∧
      (s = 0x01 → ModemStatus.fromByte s = .WatchdogReset) ∧
      (s = 0x02 → ModemStatus.fromByte s = .AssociatedCoordinator) ∧
      (s = 0x03 → ModemStatus.fromByte s = .DissociatedCoordinator) ∧
      (s = 0x06 → ModemStatus.fromByte s = .CoordinatorNewNetwork) ∧
      (s = 0x0D → ModemStatus.fromByte s = .InputVoltageTooHigh) ∧
      (s ≠ 0x00 → s ≠ 0x01 → s ≠ 0x02 → s ≠ 0x03 → s ≠ 0x06 → s ≠ 0x0D →
        ModemStatus.fromByte s = .Unknown)) ∧
    (∀ fid a0 a1 a2 a3 a4 a5 a6 a7 d0 d1 c1 c2 s rest,
      ApiData.parse (0x97 :: fid :: a0 :: a1 :: a2 :: a3 :: a4 :: a5 :: a6 :: a7 ::
          d0 :: d1 :: c1 :: c2 :: s :: rest) =
        some (.ok (.RemoteAtCommandResponse fid (be64 a0 a1 a2 a3 a4 a5 a6 a7)
          (d0 * 256 + d1) (c1, c2) (atStatus97 s) rest)) ∧
      (s = 0 → atStatus97 s = .Ok) ∧
      (s = 1 → atStatus97 s = .Error) ∧
      (s = 2 → atStatus97 s = .InvalidCommand) ∧
      (s = 3 → atStatus97 s = .InvalidParam) ∧
      (s = 4 → atStatus97 s = .NoResponse) ∧
      (s ≠ 0 → s ≠ 1 → s ≠ 2 → s ≠ 3 → s ≠ 4 → atStatus97 s = .Unknown)) := by
  refine ⟨?_, ?_, ?_, ?_⟩
  · intro fid c1 c2 s rest
    exact ⟨parse_88 fid c1 c2 s rest,
      fun h => by subst h; rfl, fun h => by subst h; rfl,
      fun h => by subst h; rfl, fun h => by subst h; rfl,
      atStatus88_unknown s⟩
  · intro fid s
    exact ⟨parse_89 fid s,
      fun h => by subst h; rfl, fun h => by subst h; rfl,
      fun h => by subst h; rfl, fun h => by subst h; rfl,
      fun h => by subst h; rfl, fun h => by subst h; rfl,
      fun h => by subst h; rfl, fun h => by subst h; rfl,
      fun h => by subst h; rfl,
      txStatus_fromByte_unknown s⟩
  · intro s
    exact ⟨parse_8A s,
      fun h => by subst h; rfl, fun h => by subst h; rfl,
      fun h => by subst h; rfl, fun h => by subst h; rfl,
      fun h => by subst h; rfl, fun h => by subst h; rfl,
      modemStatus_fromByte_unknown s⟩
  · intro fid a0 a1 a2 a3 a4 a5 a6 a7 d0 d1 c1 c2 s rest
    exact ⟨parse_97 fid a0 a1 a2 a3 a4 a5 a6 a7 d0 d1 c1 c2 s rest,
      fun h => by subst h; rfl, fun h => by subst h; rfl,
      fun h => by subst h; rfl, fun h => by subst h; rfl,
      fun h => by subst h; rfl,
      atStatus97_unknown s⟩

/-- Witness for C4: an unmapped modem-status byte decodes to `Unknown`,
never a parse failure. -/
theorem c4_witness :
    ApiData.parse [0x8A, 0xFF] =
      some (.ok (.ModemStatus (ModemStatus.fromByte 0xFF))) ∧
    ModemStatus.fromByte 0xFF = .Unknown :=
  ⟨(c4_status_decode.2.2.1 0xFF).1,
    (c4_status_decode.2.2.1 0xFF).2.2.2.2.2.2.2 (by decide) (by decide) (by decide)
      (by decide) (by decide) (by decide)⟩

theorem tx_collect_succ (n : Nat) (s : TxRequestIter) :
    TxRequestIter.collect (n + 1) s =
      match s.next with
      | none => []
      | some (b, s') => b :: TxRequestIter.collect n s' := rfl

theorem tx_collect_data (d : List Nat) :
    ∀ fid a sh op, TxRequestIter.collect d.length ⟨.Data, fid, a, sh, op, d⟩ = d := by
  induction d with
  | nil => intro fid a sh op; rfl
  | cons v t ih =>
      intro fid a sh op
      rw [show (v :: t).length = t.length + 1 from rfl, tx_collect_succ]
      simp only [TxRequestIter.next]
      rw [ih]

theorem tx_collect_options (fid a sh op : Nat) (d : List Nat) :
    TxRequestIter.collect (d.length + 1) ⟨.Options, fid, a, sh, op, d⟩ = op :: d := by
  rw [tx_collect_succ]
  simp only [TxRequestIter.next]
  rw [tx_collect_data]

/-- C7: `TxRequestIter` yields exactly, in order, the type code selected by
the address width (`0x00` long, `0x01` short), the frame id, the address
bytes most-significant-first (8 for long, 2 for short), the options byte,
then the caller's data verbatim; in particular the repository's
frame_id = 1, long address `0x0013A200415D1DBB`, no options, "Testing"
example yields `00 01 00 13 A2 00 41 5D 1D BB 00 54 65 73 74 69 6E 67`. -/
theorem c7_tx_request_bytes :
    (∀ (fid a op : Nat) (d : List Nat),
      TxRequestIter.emitAll (TxRequestIter.new fid (Addr.Long a) op d) =
        0x00 :: fid :: (a >>> 56) % 256 :: (a >>> 48) % 256 :: (a >>> 40) % 256 ::
          (a >>> 32) % 256 :: (a >>> 24) % 256 :: (a >>> 16) % 256 ::
          (a >>> 8) % 256 :: a % 256 :: op :: d) ∧
    (∀ (fid a op : Nat) (d : List Nat),
      TxRequestIter.emitAll (TxRequestIter.new fid (Addr.Short a) op d) =
        0x01 :: fid :: (a >>> 8) % 256 :: a % 256 :: op :: d) ∧
    TxRequestIter.emitAll (TxRequestIter.new 1 (Addr.Long 0x0013A200415D1DBB) 0
        [0x54, 0x65, 0x73, 0x74, 0x69, 0x6E, 0x67]) =
      [0x00, 0x01, 0x00, 0x13, 0xA2, 0x00, 0x41, 0x5D, 0x1D, 0xBB, 0x00,
        0x54, 0x65, 0x73, 0x74, 0x69, 0x6E, 0x67] := by
  refine ⟨?_, ?_, ?_⟩
  · intro fid a op d
    unfold TxRequestIter.emitAll TxRequestIter.new TxRequestIter.len
    norm_num
    rw [show 11 + d.length = 10 + d.length + 1 from by omega, tx_collect_succ]
    simp only [TxRequestIter.next]
    norm_num
    rw [show 10 + d.length = 9 + d.length + 1 from by omega, tx_collect_succ]
    simp only [TxRequestIter.next]
    rw [show 9 + d.length = 8 + d.length + 1 from by omega, tx_collect_succ]
    simp only [TxRequestIter.next]
    norm_num
    rw [show 8 + d.length = 7 + d.length + 1 from by omega, tx_collect_succ]
    simp only [TxRequestIter.next]
    norm_num
    rw [show 7 + d.length = 6 + d.length + 1 from by omega, tx_collect_succ]
    simp only [TxRequestIter.next]
    norm_num
    rw [show 6 + d.length = 5 + d.length + 1 from by omega, tx_collect_succ]
    simp only [TxRequestIter.next]
    norm_num
    rw [show 5 + d.length = 4 + d.length + 1 from by omega, tx_collect_succ]
    simp only [TxRequestIter.next]
    norm_num
    rw [show 4 + d.length = 3 + d.length + 1 from by omega, tx_collect_succ]
    simp only [TxRequestIter.next]
    norm_num
    rw [show 3 + d.length = 2 + d.length + 1 from by omega, tx_collect_succ]
    simp only [TxRequestIter.next]
    norm_num
    rw [show 2 + d.length = d.length + 1 + 1 from by omega, tx_collect_succ]
    simp only [TxRequestIter.next]
    norm_num
    rw [tx_collect_options]
  · intro fid a op d
    unfold TxRequestIter.emitAll TxRequestIter.new TxRequestIter.len
    norm_num
    rw [show 5 + d.length = 4 + d.length + 1 from by omega, tx_collect_succ]
    simp only [TxRequestIter.next]
    norm_num
    rw [show 4 + d.length = 3 + d.length + 1 from by omega, tx_collect_succ]
    simp only [TxRequestIter.next]
    rw [show 3 + d.length = 2 + d.length + 1 from by omega, tx_collect_succ]
    simp only [TxRequestIter.next]
    norm_num
    rw [show 2 + d.length = d.length + 1 + 1 from by omega, tx_collect_succ]
    simp only [TxRequestIter.next]
    norm_num
    rw [tx_collect_options]
  · rfl

set_option maxRecDepth 100000 in
theorem single_bit_flip (b j : Nat) (hb : b < 256) (hj : j < 8) :
    b ^^^ 2 ^ j = b + 2 ^ j ∨ b = (b ^^^ 2 ^ j) + 2 ^ j := by
  have h : ∀ b : Nat, b < 256 → ∀ j : Nat, j < 8 →
      (b ^^^ 2 ^ j = b + 2 ^ j ∨ b = (b ^^^ 2 ^ j) + 2 ^ j) := by decide
  exact h b hb j hj

theorem wsum_mid (p1 p2 : List Nat) (x : Nat) :
    wsum (p1 ++ x :: p2) = (p1.sum + (x + p2.sum)) % 256 := by
  rw [wsum_eq]
  simp

/-- C8: for every well-formed frame (start marker, big-endian length equal
to the payload length, valid checksum), flipping any single bit of any
payload byte (first conjunct) or of the checksum byte (second conjunct)
makes `unpack_frame` fail with `BadChecksum`. -/
theorem c8_checksum_sensitivity :
    (∀ (hi lo : Nat) (p1 : List Nat) (b : Nat) (p2 : List Nat) (ck j : Nat),
      hi * 256 + lo = p1.length + 1 + p2.length → b < 256 → j < 8 →
      (ck + wsum (p1 ++ b :: p2)) % 256 = 0xFF →
      ∃ s, unpack_frame (START :: hi :: lo :: ((p1 ++ (b ^^^ 2 ^ j) :: p2) ++ [ck]))
          false false = some (.error (.BadChecksum s))) ∧
    (∀ (hi lo : Nat) (p : List Nat) (ck j : Nat),
      hi * 256 + lo = p.length → ck < 256 → j < 8 →
      (ck + wsum p) % 256 = 0xFF →
      ∃ s, unpack_frame (START :: hi :: lo :: (p ++ [ck ^^^ 2 ^ j]))
          false false = some (.error (.BadChecksum s))) := by
  constructor
  · intro hi lo p1 b p2 ck j hL hb hj hck
    have hd2 : 2 ^ j ≤ 128 := by
      calc 2 ^ j ≤ 2 ^ 7 := Nat.pow_le_pow_right (by norm_num) (by omega)
        _ = 128 := by norm_num
    have hd1 : 1 ≤ 2 ^ j := Nat.one_le_two_pow
    have hL2 : hi * 256 + lo = (p1 ++ (b ^^^ 2 ^ j) :: p2).length := by
      simp only [List.length_append, List.length_cons]
      omega
    rw [wsum_mid] at hck
    have H : ¬ (ck + wsum (p1 ++ (b ^^^ 2 ^ j) :: p2)) % 256 = 0xFF := by
      rw [wsum_mid]
      rcases single_bit_flip b j hb hj with h | h
      · rw [h]
        omega
      · rw [h] at hck
        omega
    refine ⟨wsum (p1 ++ (b ^^^ 2 ^ j) :: p2), ?_⟩
    rw [unpack_frame_start, hL2, take_append_len, getD_append_len, drop_append_one,
      if_neg (by simp; omega), if_neg H]
  · intro hi lo p ck j hL hck' hj hck
    have hd2 : 2 ^ j ≤ 128 := by
      calc 2 ^ j ≤ 2 ^ 7 := Nat.pow_le_pow_right (by norm_num) (by omega)
        _ = 128 := by norm_num
    have hd1 : 1 ≤ 2 ^ j := Nat.one_le_two_pow
    have H : ¬ ((ck ^^^ 2 ^ j) + wsum p) % 256 = 0xFF := by
      rcases single_bit_flip ck j hck' hj with h | h
      · rw [h]
        omega
      · rw [h] at hck
        omega
    refine ⟨wsum p, ?_⟩
    rw [unpack_frame_start, hL, take_append_len, getD_append_len, drop_append_one,
      if_neg (by simp), if_neg H]

/-- Witness for C8: flipping bit 0 of the payload byte of the valid frame
`7E 00 01 42 BD` yields `7E 00 01 43 BD`, which fails with `BadChecksum`. -/
theorem c8_witness :
    ∃ s, unpack_frame [0x7E, 0x00, 0x01, 0x43, 0xBD] false false =
      some (.error (.BadChecksum s)) :=
  c8_checksum_sensitivity.1 0 1 [] 0x42 [] 0xBD 0 (by decide) (by decide)
    (by decide) (by decide)

theorem position_eq (p : Nat → Bool) (l : List Nat) :
    position p l =
      if l.any p then some (l.takeWhile (fun c => ! p c)).length else none := by
  induction l with
  | nil => rfl
  | cons x xs ih =>
      by_cases hx : p x = true
      · simp [position, hx, List.takeWhile_cons]
      · have hx' : p x = false := by simpa using hx
        by_cases hany : xs.any p = true
        · simp [position, hx', List.takeWhile_cons, ih, hany]
        · have hany' : xs.any p = false := by simpa using hany
          simp [position, hx', List.takeWhile_cons, ih, hany']

theorem takeWhile_length_le (q : Nat → Bool) (l : List Nat) :
    (l.takeWhile q).length ≤ l.length := by
  induction l with
  | nil => simp
  | cons x xs ih =>
      by_cases hx : q x = true
      · simp only [List.takeWhile_cons, hx, if_true, List.length_cons]
        omega
      · have hx' : q x = false := by simpa using hx
        simp [List.takeWhile_cons, hx']

theorem drop_takeWhile (q : Nat → Bool) (l : List Nat) :
    l.drop (l.takeWhile q).length = l.dropWhile q := by
  induction l with
  | nil => rfl
  | cons x xs ih =>
      by_cases hx : q x = true
      · simp [List.takeWhile_cons, List.dropWhile_cons, hx, ih]
      · have hx' : q x = false := by simpa using hx
        simp [List.takeWhile_cons, List.dropWhile_cons, hx']

theorem remove_until_start_pos (l : List Nat) (i : Nat)
    (h : position (fun c => c == START) l = some i) :
    remove_until_start l = (remove_exact i l).map (fun l' => (i, l')) := by
  unfold remove_until_start
  rw [h]

theorem remove_until_start_none (l : List Nat)
    (h : position (fun c => c == START) l = none) :
    remove_until_start l = some (l.length, []) := by
  unfold remove_until_start
  rw [h]

theorem remove_exact_eq (i : Nat) (l : List Nat) (h : i ≤ l.length) :
    remove_exact i l = some (l.drop i) := by
  unfold remove_exact
  by_cases h0 : i = 0
  · subst h0
    simp
  · rw [if_neg h0, if_pos h]

theorem dropWhile_start_head (l : List Nat) (h : START ∈ l) :
    (l.dropWhile (fun c => ! (c == START))).head? = some START := by
  induction l with
  | nil => cases h
  | cons x xs ih =>
      by_cases hx : x = START
      · subst hx
        simp [List.dropWhile_cons]
      · have hmem : START ∈ xs := by
          rcases List.mem_cons.mp h with h' | h'
          · exact absurd h'.symm hx
          · exact h'
        have hx' : (x == START) = false := by simp [hx]
        simp only [List.dropWhile_cons, hx', Bool.not_false, if_true]
        exact ih hmem

theorem takeWhile_no_start (l : List Nat) :
    ∀ k, k < (l.takeWhile (fun c => ! (c == START))).length →
      l.get? k ≠ some START := by
  induction l with
  | nil => intro k hk; simp at hk
  | cons x xs ih =>
      intro k hk
      by_cases hx : x = START
      · subst hx
        simp [List.takeWhile_cons] at hk
      · have hx' : (x == START) = false := by simp [hx]
        simp only [List.takeWhile_cons, hx', Bool.not_false, if_true,
          List.length_cons] at hk
        cases k with
        | zero => simp [hx]
        | succ k => exact ih k (by omega)

/-- C9: `remove_until_start` (reached via `remove_until_packet`) discards
exactly the bytes before the first `START` marker when one exists — the
buffer afterwards is the original buffer from that marker on, and the
returned count is the number of discarded bytes, none of which is a
marker; with no marker present it empties the buffer and returns its
previous length. -/
theorem c9_resynchronization (buf : List Nat) :
    (START ∈ buf →
      ∃ i rest, remove_until_start buf = some (i, rest) ∧ rest = buf.drop i ∧
        rest.head? = some START ∧ ∀ k, k < i → buf.get? k ≠ some START) ∧
    (START ∉ buf → remove_until_start buf = some (buf.length, [])) := by
  constructor
  · intro hmem
    have hany : buf.any (fun c => c == START) = true := by
      rw [List.any_eq_true]
      exact ⟨START, hmem, by simp⟩
    have hle := takeWhile_length_le (fun c => ! (c == START)) buf
    refine ⟨(buf.takeWhile (fun c => ! (c == START))).length,
      buf.drop (buf.takeWhile (fun c => ! (c == START))).length, ?_, rfl, ?_, ?_⟩
    · rw [remove_until_start_pos buf _ (by rw [position_eq, if_pos hany]),
        remove_exact_eq _ _ hle]
      rfl
    · rw [drop_takeWhile]
      exact dropWhile_start_head buf hmem
    · exact takeWhile_no_start buf
  · intro hnm
    have hany : buf.any (fun c => c == START) = false := by
      rw [List.any_eq_false]
      intro x hx
      simp only [beq_iff_eq]
      intro h
      exact hnm (h ▸ hx)
    exact remove_until_start_none buf (by rw [position_eq, if_neg (by simp [hany])])

/-- Witness for C9: a buffer with two garbage bytes before the marker. -/
theorem c9_witness :
    ∃ i rest, remove_until_start [1, 2, 0x7E, 9] = some (i, rest) ∧
      rest = [1, 2, 0x7E, 9].drop i ∧ rest.head? = some START ∧
      ∀ k, k < i → [1, 2, 0x7E, 9].get? k ≠ some START :=
  (c9_resynchronization [1, 2, 0x7E, 9]).1 (by decide)

theorem poll_terminates (attn : Nat → Bool) (rxb : Nat → Nat) :
    ∀ (fuel k : Nat) (tx rx : List Nat) (vr : Bool),
      tx.length + (rxCapacity - rx.length) < fuel → rx.length ≤ rxCapacity →
      ∃ out, transmit_and_receive attn rxb fuel k tx rx vr = some out ∧
        out.rx.length ≤ rxCapacity := by
  intro fuel
  induction fuel with
  | zero => intro k tx rx vr h _; omega
  | succ fuel ih =>
      intro k tx rx vr hf hrx
      cases tx with
      | nil =>
          by_cases ha : attn k = false
          · simp only [transmit_and_receive]
            rw [if_pos (Or.inr ha), if_pos ha]
            by_cases hfull : rx.length < rxCapacity
            · rw [if_pos hfull]
              by_cases hbreak : (rx ++ [rxb k]).length = rxCapacity
              · rw [if_pos hbreak]
                refine ⟨_, rfl, ?_⟩
                simp only [PollOutcome.rx]
                omega
              · rw [if_neg hbreak]
                apply ih
                · simp only [List.length_nil, List.length_append,
                    List.length_singleton] at hf ⊢
                  simp only [List.length_append, List.length_singleton] at hbreak
                  simp only [rxCapacity] at hf hbreak hfull ⊢
                  omega
                · simp only [List.length_append, List.length_singleton]
                  simp only [rxCapacity] at hfull ⊢
                  omega
            · rw [if_neg hfull]
              exact ⟨_, rfl, by simpa [PollOutcome.rx] using hrx⟩
          · simp only [transmit_and_receive]
            rw [if_neg (by simp [ha])]
            exact ⟨_, rfl, by simpa [PollOutcome.rx] using hrx⟩
      | cons b t =>
          simp only [transmit_and_receive]
          rw [if_pos (Or.inl (by simp))]
          by_cases ha : attn k = false
          · rw [if_pos ha]
            by_cases hfull : rx.length < rxCapacity
            · rw [if_pos hfull]
              by_cases hbreak : (rx ++ [rxb k]).length = rxCapacity
              · rw [if_pos hbreak]
                refine ⟨_, rfl, ?_⟩
                simp only [PollOutcome.rx]
                omega
              · rw [if_neg hbreak]
                apply ih
                · simp only [List.length_cons, List.length_append,
                    List.length_singleton] at hf ⊢
                  simp only [List.length_append, List.length_singleton] at hbreak
                  simp only [rxCapacity] at hf hbreak hfull ⊢
                  omega
                · simp only [List.length_append, List.length_singleton]
                  simp only [rxCapacity] at hfull ⊢
                  omega
            · rw [if_neg hfull]
              exact ⟨_, rfl, by simpa [PollOutcome.rx] using hrx⟩
          · rw [if_neg ha]
            apply ih
            · simp only [List.length_cons] at hf ⊢
              omega
            · exact hrx

/-- C6: for every attention-signal pattern and delivered-byte sequence
(each exchange completing), `transmit_and_receive` terminates within
`tx.length + (512 - rx.length) + 1` iterations — normally or, when the
receive buffer is already full on entry with attention deasserted, with
the `try_push(..).unwrap()` panic as its outcome — and in every case the
receive buffer it leaves behind never exceeds the declared 512-byte
capacity. -/
theorem c6_transport_liveness (attn : Nat → Bool) (rxb : Nat → Nat) (k : Nat)
    (tx rx : List Nat) (vr : Bool) (hrx : rx.length ≤ rxCapacity) :
    ∃ out, transmit_and_receive attn rxb
        (tx.length + (rxCapacity - rx.length) + 1) k tx rx vr = some out ∧
      out.rx.length ≤ rxCapacity :=
  poll_terminates attn rxb _ k tx rx vr (by omega) hrx

/-- Witness for C6: a full receive buffer on entry with the attention
signal held deasserted. -/
theorem c6_witness :
    ∃ out, transmit_and_receive (fun _ => false) (fun _ => 0)
        (([] : List Nat).length + (rxCapacity - (List.replicate 512 0).length) + 1)
        0 [] (List.replicate 512 0) false = some out ∧
      out.rx.length ≤ rxCapacity :=
  c6_transport_liveness (fun _ => false) (fun _ => 0) 0 [] (List.replicate 512 0)
    false (by rw [List.length_replicate]; simp [rxCapacity])

end XbeeS2C
